import Mathlib

/-
Verification of the live-event subscription channel and the REST view glue
of the FaceRecognitionAttendance dashboard.

Part 1 embeds src/useWs.js: a React hook that opens a WebSocket to a URL,
installs an onmessage handler that JSON-parses each frame and forwards the
parsed value to the consumer callback only while a per-effect-run liveness
flag is set, and returns an effect cleanup that clears the flag and closes
the socket held in a ref cell.

The embedding is a small-step state model.  Each effect run is a closure
record (its liveness flag, whether the consumer callback was provided,
the socket its handler was installed on, and whether it registered a
cleanup).  The transport constructor is a parameter (mk : String -> Bool,
true = construction succeeds, false = the constructor throws, which the
source catches); JSON.parse is a parameter (dec : String -> Option V,
none = parse throws, caught by the handler).  Frames may fire a handler
even after the socket was closed: this models the decode/teardown race
the source guards with the liveness flag, and makes the no-dispatch-after-
close theorems adversarial rather than vacuous.

Part 2 embeds src/api.js and the Students / Logs / Dashboard components:
their fetch-result state transitions and the view each renders.
-/

namespace FaceAttend

/-- One effect run of useWs: the closure state captured by that run.
Fields mirror the source: the local liveness flag set at the top of the
effect body, truthiness of the onMsg argument, the socket (by id) whose
onmessage handler this run installed, and whether the run returned a
cleanup function (the early returns for an empty url or a throwing
constructor return no cleanup). -/
structure Run where
  alive : Bool
  onMsgDefined : Bool
  conn : Option Nat
  hasCleanup : Bool
  deriving Repr, DecidableEq

/-- Observable state of the hook and its environment: the stack of effect
runs (head = most recent), the ref cell wsRef.current (socket id), a fresh
socket id counter, how many times the WebSocket constructor was invoked,
the sockets successfully constructed (id, url) in order, the sockets that
effectively transitioned to closed, the values passed to onMsg in order,
and the console error/log lines the channel emitted. -/
structure WsState (V : Type) where
  runs : List Run
  refCurrent : Option Nat
  nextId : Nat
  ctorCalls : Nat
  opened : List (Nat × String)
  closedIds : List Nat
  calls : List V
  logMsgs : List String
  deriving Repr, DecidableEq

/-- State before the hook ever ran. -/
def initState (V : Type) : WsState V :=
  { runs := [], refCurrent := none, nextId := 0, ctorCalls := 0,
    opened := [], closedIds := [], calls := [], logMsgs := [] }

/-- The effect body of useWs.  Mirrors the source line by line:
if the url is empty, return at once (no constructor call, no handler, no
cleanup); otherwise set the liveness flag, try to construct the socket —
on a throw, print "ws err" and return (no handler, no cleanup) — and on
success install the handler, store the socket in the ref cell and register
the cleanup. -/
def runEffect {V : Type} (mk : String → Bool) (url : String) (omd : Bool)
    (s : WsState V) : WsState V :=
  if url = "" then
    { s with runs := ⟨false, omd, none, false⟩ :: s.runs }
  else if mk url then
    { s with runs := ⟨true, omd, some s.nextId, true⟩ :: s.runs,
             refCurrent := some s.nextId,
             nextId := s.nextId + 1,
             ctorCalls := s.ctorCalls + 1,
             opened := s.opened ++ [(s.nextId, url)] }
  else
    { s with runs := ⟨true, omd, none, false⟩ :: s.runs,
             ctorCalls := s.ctorCalls + 1,
             logMsgs := s.logMsgs ++ ["ws err"] }

/-- A socket transitions to closed.  WebSocket close on an already closed
socket does nothing; an effective transition fires the onclose handler,
which prints "ws closed".  Used both for close() from the cleanup and for
natural (server/network initiated) termination. -/
def closeSocket {V : Type} (i : Nat) (s : WsState V) : WsState V :=
  if i ∈ s.closedIds then s
  else { s with closedIds := s.closedIds ++ [i],
                logMsgs := s.logMsgs ++ ["ws closed"] }

/-- The cleanup closes the socket held in the ref cell, if any
(the source guard: if wsRef.current, wsRef.current.close()). -/
def closeRef {V : Type} (s : WsState V) : WsState V :=
  match s.refCurrent with
  | some i => closeSocket i s
  | none => s

/-- Running the effect cleanup of the most recent run.  If that run
registered a cleanup, clear its liveness flag and close the socket in the
ref cell; a run that returned early registered nothing, so tearing it down
does nothing. -/
def runCleanup {V : Type} (s : WsState V) : WsState V :=
  match s.runs with
  | [] => s
  | r :: rest =>
    if r.hasCleanup then
      closeRef { s with runs := { r with alive := false } :: rest }
    else s

/-- The run (if any) whose onmessage handler is installed on socket i.
Each run installs a handler on at most one socket, and each socket gets
its handler from the one run that constructed it. -/
def handlerFor (runs : List Run) (i : Nat) : Option Run :=
  runs.find? (fun r => r.conn = some i)

/-- One inbound frame with payload p delivered on socket i: the handler,
if installed, tries to decode the payload; on success it invokes the
consumer only if the callback was provided and the liveness flag of the
handler-owning run is still set; on a decode throw it prints "ws parse"
and drops the frame.  A frame on a socket with no handler does nothing. -/
def wsFrame {V : Type} (dec : String → Option V) (i : Nat) (p : String)
    (s : WsState V) : WsState V :=
  match handlerFor s.runs i with
  | none => s
  | some r =>
    match dec p with
    | some j =>
        if r.onMsgDefined && r.alive then { s with calls := s.calls ++ [j] }
        else s
    | none => { s with logMsgs := s.logMsgs ++ ["ws parse"] }

/-- A sequence of frames delivered in order on one socket. -/
def feedFrames {V : Type} (dec : String → Option V) (i : Nat)
    (ps : List String) (s : WsState V) : WsState V :=
  ps.foldl (fun t p => wsFrame dec i p t) s

/-- A sequence of frames delivered in order, each on its own socket. -/
def feedMixed {V : Type} (dec : String → Option V)
    (evs : List (Nat × String)) (s : WsState V) : WsState V :=
  evs.foldl (fun t e => wsFrame dec e.1 e.2 t) s

/-- No run can dispatch any more: every effect run either has its liveness
flag cleared or never installed a handler on a socket. -/
def dispatchDead {V : Type} (s : WsState V) : Prop :=
  ∀ r ∈ s.runs, r.alive = false ∨ r.conn = none

/- ---------------------------------------------------------------------
Part 2: the REST boundary.
src/api.js builds an axios instance from an environment value with a
loopback default and a 10000 ms timeout.  The Students, Logs and Dashboard
components, however, issue their GET requests through the default axios
client with relative paths.  Each component is embedded as its fetch-state
transition (the state after the effect settles) plus the view it renders.
--------------------------------------------------------------------- -/

/-- The per-request client configuration that matters here: the base URL,
if any, and the request timeout in milliseconds (axios default: 0, meaning
no timeout). -/
structure AxiosConfig where
  baseURL : Option String
  timeout : Nat
  deriving Repr, DecidableEq

/-- src/api.js: axios.create with baseURL = process.env.REACT_APP_BACKEND
falling back (on an absent or empty value, both falsy) to the loopback
address, and timeout 10000. -/
def apiClient (envBackend : Option String) : AxiosConfig :=
  { baseURL := some (match envBackend with
      | some s => if s = "" then "http://127.0.0.1:8000" else s
      | none => "http://127.0.0.1:8000"),
    timeout := 10000 }

/-- The default axios client the components actually import: no base URL
configured, timeout 0. -/
def defaultAxios : AxiosConfig :=
  { baseURL := none, timeout := 0 }

/-- One REST call site: which client configuration it goes through and the
request path. -/
structure RestCall where
  client : AxiosConfig
  path : String
  deriving Repr, DecidableEq

/-- Students component: axios.get on the global client. -/
def studentsCall : RestCall :=
  { client := defaultAxios, path := "/api/v1/students" }

/-- Logs component: axios.get on the global client. -/
def logsCall : RestCall :=
  { client := defaultAxios, path := "/api/v1/attendance/logs" }

/-- Dashboard component: axios.get on the global client. -/
def summaryCall : RestCall :=
  { client := defaultAxios, path := "/api/v1/dashboard/summary" }

/-- Every REST call the system makes. -/
def systemRestCalls : List RestCall :=
  [studentsCall, logsCall, summaryCall]

/-- An HTTP response attached to an axios error (e.response), when the
server answered at all. -/
structure HttpResponse where
  status : Nat
  body : String
  deriving Repr, DecidableEq

/-- An axios rejection: always a message; a response only when one was
received. -/
structure AxiosError where
  message : String
  response : Option HttpResponse
  deriving Repr, DecidableEq

/-- The error record the Students and Logs components store:
message := e.message, status := e.response?.status, data := e.response?.data. -/
structure ErrInfo where
  message : String
  status : Option Nat
  data : Option String
  deriving Repr, DecidableEq

/-- The error record built from an axios rejection, as both components
build it. -/
def errInfoOf (e : AxiosError) : ErrInfo :=
  { message := e.message,
    status := e.response.map (fun r => r.status),
    data := e.response.map (fun r => r.body) }

/-- The HTTP line of the error box: String(err.status || "n/a") — a
missing status, and status 0, are both falsy and print as "n/a". -/
def statusText (st : Option Nat) : String :=
  match st with
  | some n => if n = 0 then "n/a" else toString n
  | none => "n/a"

/-- What the error box of the Students and Logs views displays when it is
rendered: the message line, the HTTP line, and the stringified response
body (absent when there was no response). -/
structure ErrorBox where
  messageLine : String
  httpLine : String
  bodyText : Option String
  deriving Repr, DecidableEq

/-- The error box is rendered exactly when the stored error is non-null,
and then shows message, status text and body. -/
def renderErrorBox (err : Option ErrInfo) : Option ErrorBox :=
  err.map (fun e => ⟨e.message, statusText e.status, e.data⟩)

/-- A roster entry as the Students view consumes it. -/
structure Student where
  id : Nat
  name : String
  roll : String
  email : Option String
  deriving Repr, DecidableEq

/-- Students component state: list, loading, err. -/
structure StudentsState where
  list : List Student
  loading : Bool
  err : Option ErrInfo
  deriving Repr, DecidableEq

/-- Students initial state: empty list, loading, no error. -/
def studentsInit : StudentsState :=
  { list := [], loading := true, err := none }

/-- Students state once the fetch settles: on success store r.data or
(when the body is null) the empty list; on rejection store the full error
record; either way loading ends. -/
def studentsAfterFetch (res : Except AxiosError (Option (List Student))) :
    StudentsState :=
  match res with
  | Except.ok d => { studentsInit with list := d.getD [], loading := false }
  | Except.error e =>
      { studentsInit with loading := false, err := some (errInfoOf e) }

/-- An attendance log entry as the Logs view consumes it. -/
structure LogEntry where
  id : Nat
  student_name : Option String
  student_roll : Option String
  entry_time : String
  present : Bool
  deriving Repr, DecidableEq

/-- A successful logs response body: either a JSON array of entries, or
anything else (object, string, null, ...), kept abstract. -/
inductive LogsBody where
  | arr (xs : List LogEntry)
  | nonArray (raw : String)
  deriving Repr, DecidableEq

/-- Logs component state: logs, loading, err. -/
structure LogsState where
  logsList : List LogEntry
  loading : Bool
  err : Option ErrInfo
  deriving Repr, DecidableEq

/-- Logs initial state. -/
def logsInit : LogsState :=
  { logsList := [], loading := true, err := none }

/-- Logs state once the fetch settles: on success store the body if it is
an array and the empty list otherwise (the Array.isArray guard); on
rejection store the full error record. -/
def logsAfterFetch (res : Except AxiosError LogsBody) : LogsState :=
  match res with
  | Except.ok (LogsBody.arr xs) => { logsInit with logsList := xs, loading := false }
  | Except.ok (LogsBody.nonArray _) => { logsInit with logsList := [], loading := false }
  | Except.error e => { logsInit with loading := false, err := some (errInfoOf e) }

/-- The Logs view renders its empty-state message exactly when the list is
empty, loading is over and no error is stored. -/
def logsShowsEmptyState (s : LogsState) : Bool :=
  s.logsList.isEmpty && !s.loading && s.err.isNone

/-- A summary response body: the two fields the Dashboard reads, each
possibly absent. -/
structure SummaryData where
  students : Option Int
  todays : Option Int
  deriving Repr, DecidableEq

/-- The statistics the Dashboard displays. -/
structure Stats where
  students : Int
  todays : Int
  deriving Repr, DecidableEq

/-- Dashboard component state: stats, loading, err, plus the console.warn
lines emitted. -/
structure DashState where
  stats : Stats
  loading : Bool
  err : Option String
  warned : List String
  deriving Repr, DecidableEq

/-- Dashboard initial state: both counters 0. -/
def dashInit : DashState :=
  { stats := ⟨0, 0⟩, loading := true, err := none, warned := [] }

/-- Dashboard state once the summary fetch settles.  On success with a
truthy body, Object.assign over the zero defaults: a present field wins,
an absent one stays 0; a falsy body leaves the initial stats.  On
rejection, console.warn the message and store e.message (or the fallback
text when the message is empty, hence falsy) in err. -/
def dashAfterFetch (res : Except AxiosError (Option SummaryData)) : DashState :=
  match res with
  | Except.ok (some d) =>
      { dashInit with
        stats := ⟨d.students.getD 0, d.todays.getD 0⟩, loading := false }
  | Except.ok none => { dashInit with loading := false }
  | Except.error e =>
      { dashInit with
        loading := false,
        err := some (if e.message = "" then "Not available" else e.message),
        warned := ["Dashboard summary not available: " ++ e.message] }

/-- What the Dashboard renders: the loading card, a visible error card
with the stored message, or the two statistics cards. -/
inductive DashView where
  | loadingCard
  | errorCard (msg : String)
  | statsCards (students todays : Int)
  deriving Repr, DecidableEq

/-- The Dashboard render: loading wins, then the error card when err is
non-null, else the statistics cards. -/
def dashRender (s : DashState) : DashView :=
  if s.loading then DashView.loadingCard
  else
    match s.err with
    | some m => DashView.errorCard m
    | none => DashView.statsCards s.stats.students s.stats.todays

/- ---------------------------------------------------------------------
Helper lemmas about the channel model.
--------------------------------------------------------------------- -/

theorem wsFrame_preserves {V : Type} (dec : String → Option V) (i : Nat)
    (p : String) (s : WsState V) :
    (wsFrame dec i p s).runs = s.runs ∧
    (wsFrame dec i p s).refCurrent = s.refCurrent ∧
    (wsFrame dec i p s).opened = s.opened ∧
    (wsFrame dec i p s).closedIds = s.closedIds ∧
    (wsFrame dec i p s).ctorCalls = s.ctorCalls ∧
    (wsFrame dec i p s).nextId = s.nextId := by
  unfold wsFrame
  cases handlerFor s.runs i with
  | none => exact ⟨rfl, rfl, rfl, rfl, rfl, rfl⟩
  | some r =>
    cases dec p with
    | none => exact ⟨rfl, rfl, rfl, rfl, rfl, rfl⟩
    | some j =>
      dsimp only
      by_cases hb : (r.onMsgDefined && r.alive) = true
      · rw [if_pos hb]; exact ⟨rfl, rfl, rfl, rfl, rfl, rfl⟩
      · rw [if_neg hb]; exact ⟨rfl, rfl, rfl, rfl, rfl, rfl⟩

theorem wsFrame_calls_le {V : Type} (dec : String → Option V) (i : Nat)
    (p : String) (s : WsState V) :
    (wsFrame dec i p s).calls.length ≤ s.calls.length + 1 := by
  unfold wsFrame
  cases handlerFor s.runs i with
  | none => exact Nat.le_succ _
  | some r =>
    cases dec p with
    | none => exact Nat.le_succ _
    | some j =>
      dsimp only
      by_cases hb : (r.onMsgDefined && r.alive) = true
      · rw [if_pos hb]; simp
      · rw [if_neg hb]; exact Nat.le_succ _

theorem wsFrame_calls_of_dead {V : Type} (dec : String → Option V) (i : Nat)
    (p : String) (s : WsState V)
    (h : ∀ r, handlerFor s.runs i = some r → r.alive = false) :
    (wsFrame dec i p s).calls = s.calls := by
  unfold wsFrame
  cases hf : handlerFor s.runs i with
  | none => rfl
  | some r =>
    have ha := h r hf
    cases dec p with
    | none => rfl
    | some j => dsimp only; rw [ha, Bool.and_false, if_neg (by simp)]

theorem handlerFor_spec (runs : List Run) (i : Nat) (r : Run)
    (h : handlerFor runs i = some r) : r ∈ runs ∧ r.conn = some i := by
  induction runs with
  | nil => exact absurd h (by simp [handlerFor])
  | cons q qs ih =>
    by_cases hq : q.conn = some i
    · have hh : handlerFor (q :: qs) i = some q := by
        simp [handlerFor, List.find?_cons, hq]
      rw [hh] at h
      cases h
      exact ⟨List.mem_cons_self _ _, hq⟩
    · have hh : handlerFor (q :: qs) i = handlerFor qs i := by
        simp [handlerFor, List.find?_cons, hq]
      rw [hh] at h
      obtain ⟨hm, hc⟩ := ih h
      exact ⟨List.mem_cons_of_mem _ hm, hc⟩

theorem dead_handler {V : Type} (s : WsState V) (hd : dispatchDead s) (i : Nat) :
    ∀ r, handlerFor s.runs i = some r → r.alive = false := by
  intro r hf
  obtain ⟨hmem, hconn⟩ := handlerFor_spec s.runs i r hf
  rcases hd r hmem with h | h
  · exact h
  · rw [h] at hconn; cases hconn

theorem feedMixed_runs {V : Type} (dec : String → Option V)
    (evs : List (Nat × String)) (s : WsState V) :
    (feedMixed dec evs s).runs = s.runs := by
  induction evs generalizing s with
  | nil => rfl
  | cons e evs ih =>
    calc (feedMixed dec (e :: evs) s).runs
        = (feedMixed dec evs (wsFrame dec e.1 e.2 s)).runs := rfl
      _ = (wsFrame dec e.1 e.2 s).runs := ih _
      _ = s.runs := (wsFrame_preserves dec e.1 e.2 s).1

theorem feedMixed_calls_of_dead {V : Type} (dec : String → Option V)
    (evs : List (Nat × String)) (s : WsState V) (hd : dispatchDead s) :
    (feedMixed dec evs s).calls = s.calls := by
  induction evs generalizing s with
  | nil => rfl
  | cons e evs ih =>
    have hd2 : dispatchDead (wsFrame dec e.1 e.2 s) := by
      unfold dispatchDead
      rw [(wsFrame_preserves dec e.1 e.2 s).1]
      exact hd
    calc (feedMixed dec (e :: evs) s).calls
        = (feedMixed dec evs (wsFrame dec e.1 e.2 s)).calls := rfl
      _ = (wsFrame dec e.1 e.2 s).calls := ih _ hd2
      _ = s.calls := wsFrame_calls_of_dead dec e.1 e.2 s (dead_handler s hd e.1)

theorem feedMixed_calls_le {V : Type} (dec : String → Option V)
    (evs : List (Nat × String)) (s : WsState V) :
    (feedMixed dec evs s).calls.length ≤ s.calls.length + evs.length := by
  induction evs generalizing s with
  | nil => simp [feedMixed]
  | cons e evs ih =>
    have h1 := ih (wsFrame dec e.1 e.2 s)
    have h2 := wsFrame_calls_le dec e.1 e.2 s
    have h0 : feedMixed dec (e :: evs) s = feedMixed dec evs (wsFrame dec e.1 e.2 s) := rfl
    rw [h0, List.length_cons]
    omega

theorem feedFrames_id_of_no_handler {V : Type} (dec : String → Option V)
    (i : Nat) (ps : List String) (s : WsState V)
    (h : handlerFor s.runs i = none) :
    feedFrames dec i ps s = s := by
  induction ps generalizing s with
  | nil => rfl
  | cons p ps ih =>
    have hw : wsFrame dec i p s = s := by unfold wsFrame; rw [h]
    have h0 : feedFrames dec i (p :: ps) s = feedFrames dec i ps (wsFrame dec i p s) := rfl
    rw [h0, hw, ih s h]

theorem feedFrames_calls_of_dead {V : Type} (dec : String → Option V)
    (i : Nat) (ps : List String) (s : WsState V)
    (h : ∀ r, handlerFor s.runs i = some r → r.alive = false) :
    (feedFrames dec i ps s).calls = s.calls := by
  induction ps generalizing s with
  | nil => rfl
  | cons p ps ih =>
    have hr : (wsFrame dec i p s).runs = s.runs := (wsFrame_preserves dec i p s).1
    have h2 : ∀ r, handlerFor (wsFrame dec i p s).runs i = some r → r.alive = false := by
      rw [hr]; exact h
    have h0 : feedFrames dec i (p :: ps) s = feedFrames dec i ps (wsFrame dec i p s) := rfl
    rw [h0, ih _ h2, wsFrame_calls_of_dead dec i p s h]

theorem feedFrames_spec {V : Type} (dec : String → Option V) (i : Nat)
    (ps : List String) (s : WsState V) (r : Run)
    (hf : handlerFor s.runs i = some r) (ha : r.alive = true)
    (ho : r.onMsgDefined = true) :
    (feedFrames dec i ps s).calls = s.calls ++ ps.filterMap dec
  ∧ (feedFrames dec i ps s).logMsgs
      = s.logMsgs ++ (ps.filter (fun p => (dec p).isNone)).map (fun _ => "ws parse")
  ∧ (feedFrames dec i ps s).runs = s.runs
  ∧ (feedFrames dec i ps s).closedIds = s.closedIds := by
  induction ps generalizing s with
  | nil => simp [feedFrames]
  | cons p ps ih =>
    have h0 : feedFrames dec i (p :: ps) s = feedFrames dec i ps (wsFrame dec i p s) := rfl
    cases hd : dec p with
    | some j =>
      have hw : wsFrame dec i p s = { s with calls := s.calls ++ [j] } := by
        unfold wsFrame; rw [hf, hd]; simp [ho, ha]
      have hf2 : handlerFor (wsFrame dec i p s).runs i = some r := by
        rw [hw]; exact hf
      have hih := ih (wsFrame dec i p s) hf2
      refine ⟨?_, ?_, ?_, ?_⟩
      · rw [h0, hih.1, hw]; simp [hd]
      · rw [h0, hih.2.1, hw]; simp [hd]
      · rw [h0, hih.2.2.1, hw]
      · rw [h0, hih.2.2.2, hw]
    | none =>
      have hw : wsFrame dec i p s = { s with logMsgs := s.logMsgs ++ ["ws parse"] } := by
        unfold wsFrame; rw [hf, hd]
      have hf2 : handlerFor (wsFrame dec i p s).runs i = some r := by
        rw [hw]; exact hf
      have hih := ih (wsFrame dec i p s) hf2
      refine ⟨?_, ?_, ?_, ?_⟩
      · rw [h0, hih.1, hw]; simp [hd]
      · rw [h0, hih.2.1, hw]; simp [hd]
      · rw [h0, hih.2.2.1, hw]
      · rw [h0, hih.2.2.2, hw]

theorem filterMap_length_isSome {V : Type} (dec : String → Option V)
    (ps : List String) :
    (ps.filterMap dec).length = (ps.filter (fun p => (dec p).isSome)).length := by
  induction ps with
  | nil => rfl
  | cons p ps ih => cases hd : dec p <;> simp [hd, ih]

theorem closeSocket_runs {V : Type} (i : Nat) (s : WsState V) :
    (closeSocket i s).runs = s.runs := by
  unfold closeSocket; split <;> rfl

theorem closeSocket_refCurrent {V : Type} (i : Nat) (s : WsState V) :
    (closeSocket i s).refCurrent = s.refCurrent := by
  unfold closeSocket; split <;> rfl

theorem closeSocket_calls {V : Type} (i : Nat) (s : WsState V) :
    (closeSocket i s).calls = s.calls := by
  unfold closeSocket; split <;> rfl

theorem closeSocket_opened {V : Type} (i : Nat) (s : WsState V) :
    (closeSocket i s).opened = s.opened := by
  unfold closeSocket; split <;> rfl

theorem closeSocket_mem {V : Type} (i : Nat) (s : WsState V) :
    i ∈ (closeSocket i s).closedIds := by
  unfold closeSocket
  split
  · assumption
  · simp

theorem closeSocket_of_mem {V : Type} (i : Nat) (s : WsState V)
    (h : i ∈ s.closedIds) : closeSocket i s = s := by
  unfold closeSocket; rw [if_pos h]

theorem closeRef_runs {V : Type} (s : WsState V) :
    (closeRef s).runs = s.runs := by
  unfold closeRef
  cases s.refCurrent with
  | none => rfl
  | some i => exact closeSocket_runs i s

theorem closeRef_refCurrent {V : Type} (s : WsState V) :
    (closeRef s).refCurrent = s.refCurrent := by
  unfold closeRef
  cases hr : s.refCurrent with
  | none => dsimp only; exact hr
  | some i => rw [closeSocket_refCurrent, hr]

theorem closeRef_calls {V : Type} (s : WsState V) :
    (closeRef s).calls = s.calls := by
  unfold closeRef
  cases s.refCurrent with
  | none => rfl
  | some i => exact closeSocket_calls i s

theorem closeRef_opened {V : Type} (s : WsState V) :
    (closeRef s).opened = s.opened := by
  unfold closeRef
  cases s.refCurrent with
  | none => rfl
  | some i => exact closeSocket_opened i s

theorem closeRef_closedIds_mem {V : Type} (s : WsState V) (i : Nat)
    (h : s.refCurrent = some i) : i ∈ (closeRef s).closedIds := by
  unfold closeRef; rw [h]; exact closeSocket_mem i s

theorem closeRef_of_mem_self {V : Type} (s : WsState V)
    (h : ∀ i, s.refCurrent = some i → i ∈ s.closedIds) :
    closeRef s = s := by
  unfold closeRef
  cases hr : s.refCurrent with
  | none => rfl
  | some i => exact closeSocket_of_mem i s (h i hr)

theorem runCleanup_calls {V : Type} (s : WsState V) :
    (runCleanup s).calls = s.calls := by
  unfold runCleanup
  cases s.runs with
  | nil => rfl
  | cons r rest =>
    dsimp only
    by_cases hc : r.hasCleanup = true
    · rw [if_pos hc, closeRef_calls]
    · rw [if_neg hc]

theorem runCleanup_of_runs_cons {V : Type} (s : WsState V) (r : Run)
    (rest : List Run) (hruns : s.runs = r :: rest) (hc : r.hasCleanup = true) :
    runCleanup s = closeRef { s with runs := { r with alive := false } :: rest } := by
  unfold runCleanup
  rw [hruns]
  dsimp only
  rw [if_pos hc]

theorem runCleanup_of_no_cleanup {V : Type} (s : WsState V) (r : Run)
    (rest : List Run) (hruns : s.runs = r :: rest)
    (hc : ¬ r.hasCleanup = true) : runCleanup s = s := by
  unfold runCleanup
  rw [hruns]
  dsimp only
  rw [if_neg hc]

theorem runCleanup_idem {V : Type} (s : WsState V) :
    runCleanup (runCleanup s) = runCleanup s := by
  cases hruns : s.runs with
  | nil =>
    have h : runCleanup s = s := by unfold runCleanup; rw [hruns]
    rw [h]; exact h
  | cons r rest =>
    by_cases hc : r.hasCleanup = true
    · have h1 := runCleanup_of_runs_cons s r rest hruns hc
      set t := closeRef { s with runs := { r with alive := false } :: rest } with ht
      have htruns : t.runs = { r with alive := false } :: rest := by
        rw [ht, closeRef_runs]
      have h2 : runCleanup t
          = closeRef { t with runs := { r with alive := false } :: rest } :=
        runCleanup_of_runs_cons t { r with alive := false } rest htruns hc
      have h3 : ({ t with runs := { r with alive := false } :: rest } : WsState V) = t := by
        rw [← htruns]
      have h4 : closeRef t = t := by
        apply closeRef_of_mem_self
        intro i hi
        rw [ht] at hi ⊢
        rw [closeRef_refCurrent] at hi
        exact closeRef_closedIds_mem _ i hi
      rw [h1, h2, h3, h4]
    · have h1 := runCleanup_of_no_cleanup s r rest hruns hc
      rw [h1]; exact h1

theorem runCleanup_dead_single {V : Type} (s : WsState V) (r : Run)
    (h : s.runs = [r])
    (hdead : r.hasCleanup = true ∨ r.alive = false ∨ r.conn = none) :
    dispatchDead (runCleanup s) := by
  by_cases hc : r.hasCleanup = true
  · have h1 := runCleanup_of_runs_cons s r [] h hc
    rw [h1]
    intro q hq
    rw [closeRef_runs] at hq
    simp only [List.mem_singleton] at hq
    subst hq
    exact Or.inl rfl
  · have h1 := runCleanup_of_no_cleanup s r [] h hc
    rw [h1]
    intro q hq
    rw [h] at hq
    simp only [List.mem_singleton] at hq
    subst hq
    rcases hdead with hd | hd | hd
    · exact absurd hd hc
    · exact Or.inl hd
    · exact Or.inr hd

/- ---------------------------------------------------------------------
The claims.
--------------------------------------------------------------------- -/

/-- C1: for every sequence of inbound frames on a channel opened by
useWs(url, onMsg), if the handle is closed (the effect cleanup runs,
clearing the liveness flag) before frame k arrives, onMsg is never invoked
for frame k or any later frame — whatever socket those frames arrive on
and whatever their decode outcome — and onMsg is invoked at most k−1 times
in total. -/
theorem no_dispatch_after_close (V : Type) (mk : String → Bool)
    (dec : String → Option V) (url : String) (omd : Bool)
    (before after : List (Nat × String)) :
    (feedMixed dec after (runCleanup (feedMixed dec before
        (runEffect mk url omd (initState V))))).calls
      = (runCleanup (feedMixed dec before (runEffect mk url omd (initState V)))).calls
  ∧ (feedMixed dec after (runCleanup (feedMixed dec before
        (runEffect mk url omd (initState V))))).calls.length ≤ before.length := by
  have hsingle : ∃ r : Run, (runEffect mk url omd (initState V)).runs = [r]
      ∧ (r.hasCleanup = true ∨ r.alive = false ∨ r.conn = none) := by
    by_cases hu : url = ""
    · subst hu
      exact ⟨⟨false, omd, none, false⟩, rfl, Or.inr (Or.inl rfl)⟩
    · cases hm : mk url with
      | true =>
        refine ⟨⟨true, omd, some 0, true⟩, ?_, Or.inl rfl⟩
        have h0 : runEffect mk url omd (initState V)
            = ⟨[⟨true, omd, some 0, true⟩], some 0, 1, 1, [(0, url)], [], [], []⟩ := by
          unfold runEffect initState
          rw [if_neg hu, if_pos hm]
          exact rfl
        rw [h0]
      | false =>
        refine ⟨⟨true, omd, none, false⟩, ?_, Or.inr (Or.inr rfl)⟩
        have h0 : runEffect mk url omd (initState V)
            = ⟨[⟨true, omd, none, false⟩], none, 0, 1, [], [], [], ["ws err"]⟩ := by
          unfold runEffect initState
          rw [if_neg hu, if_neg (by rw [hm]; exact Bool.false_ne_true)]
          exact rfl
        rw [h0]
  obtain ⟨r, hruns, hdead⟩ := hsingle
  have h1runs : (feedMixed dec before (runEffect mk url omd (initState V))).runs = [r] := by
    rw [feedMixed_runs]; exact hruns
  have hdd : dispatchDead
      (runCleanup (feedMixed dec before (runEffect mk url omd (initState V)))) :=
    runCleanup_dead_single _ r h1runs hdead
  constructor
  · exact feedMixed_calls_of_dead dec after _ hdd
  · rw [feedMixed_calls_of_dead dec after _ hdd, runCleanup_calls]
    have hle := feedMixed_calls_le dec before (runEffect mk url omd (initState V))
    have hcalls : (runEffect mk url omd (initState V)).calls = [] := by
      unfold runEffect initState
      by_cases hu : url = ""
      · rw [if_pos hu]
      · rw [if_neg hu]
        cases mk url with
        | true => rw [if_pos rfl]
        | false => rw [if_neg Bool.false_ne_true]
    rw [hcalls] at hle
    simpa using hle

/-- C2: on an open, live channel, onMsg is invoked exactly once per frame
whose payload decodes, with the decoded value, in strict arrival order
(the call list is the filterMap of the decoder over the frames); the call
count equals the number of well-formed frames; a malformed frame is
dropped with a "ws parse" log line, does not close the connection, and
does not block dispatch of later well-formed frames. -/
theorem decode_isolation_ordering (V : Type) (mk : String → Bool)
    (dec : String → Option V) (url : String) (ps : List String)
    (hurl : url ≠ "") (hmk : mk url = true) :
    (feedFrames dec 0 ps (runEffect mk url true (initState V))).calls = ps.filterMap dec
  ∧ (feedFrames dec 0 ps (runEffect mk url true (initState V))).calls.length
      = (ps.filter (fun p => (dec p).isSome)).length
  ∧ (feedFrames dec 0 ps (runEffect mk url true (initState V))).closedIds = []
  ∧ (feedFrames dec 0 ps (runEffect mk url true (initState V))).logMsgs
      = (ps.filter (fun p => (dec p).isNone)).map (fun _ => "ws parse") := by
  have h0 : runEffect mk url true (initState V)
      = ⟨[⟨true, true, some 0, true⟩], some 0, 1, 1, [(0, url)], [], [], []⟩ := by
    unfold runEffect initState
    rw [if_neg hurl, if_pos hmk]
    exact rfl
  rw [h0]
  have hspec := feedFrames_spec dec 0 ps
    (⟨[⟨true, true, some 0, true⟩], some 0, 1, 1, [(0, url)], [], [], []⟩ : WsState V)
    ⟨true, true, some 0, true⟩ rfl rfl rfl
  refine ⟨?_, ?_, ?_, ?_⟩
  · exact hspec.1.trans (List.nil_append _)
  · rw [hspec.1]
    simp [filterMap_length_isSome]
  · exact hspec.2.2.2
  · exact hspec.2.1.trans (List.nil_append _)

/-- C2 witness: a concrete run with frames [a, x, a] where only a decodes,
yielding exactly the two decoded values in order. -/
theorem decode_isolation_ordering_witness :
    ("u" ≠ "")
  ∧ (feedFrames (fun p => if p = "a" then some 1 else none) 0 ["a", "x", "a"]
      (runEffect (fun _ => true) "u" true (initState Nat))).calls = [1, 1] := by
  refine ⟨by decide, ?_⟩
  have h := (decode_isolation_ordering Nat (fun _ => true)
      (fun p => if p = "a" then some 1 else none) "u" ["a", "x", "a"]
      (by decide) rfl).1
  rw [h]
  decide

/-- C3: a url change from non-empty U1 to non-empty U2 issues exactly one
close on the U1 socket and exactly one open of a brand-new U2 socket (a
fresh connection object, id 1, never a retarget of socket 0); the U1 run's
liveness flag is already cleared in the intermediate state before the U2
effect runs; and frames arriving late on the closed U1 socket never reach
onMsg. -/
theorem endpoint_change_resubscription (V : Type) (mk : String → Bool)
    (dec : String → Option V) (u1 u2 : String) (omd : Bool) (late : List String)
    (h1 : u1 ≠ "") (h2 : u2 ≠ "") (m1 : mk u1 = true) (m2 : mk u2 = true) :
    (runCleanup (runEffect mk u1 omd (initState V))).opened = [(0, u1)]
  ∧ (runCleanup (runEffect mk u1 omd (initState V))).closedIds = [0]
  ∧ (∀ r ∈ (runCleanup (runEffect mk u1 omd (initState V))).runs,
      r.conn = some 0 → r.alive = false)
  ∧ (runEffect mk u2 omd (runCleanup (runEffect mk u1 omd (initState V)))).opened
      = [(0, u1), (1, u2)]
  ∧ (runEffect mk u2 omd (runCleanup (runEffect mk u1 omd (initState V)))).closedIds = [0]
  ∧ handlerFor (runEffect mk u2 omd (runCleanup (runEffect mk u1 omd (initState V)))).runs 1
      = some ⟨true, omd, some 1, true⟩
  ∧ (feedFrames dec 0 late (runEffect mk u2 omd (runCleanup
      (runEffect mk u1 omd (initState V))))).calls = [] := by
  have hA : runEffect mk u1 omd (initState V)
      = ⟨[⟨true, omd, some 0, true⟩], some 0, 1, 1, [(0, u1)], [], [], []⟩ := by
    unfold runEffect initState
    rw [if_neg h1, if_pos m1]
    exact rfl
  have hB : runCleanup
      (⟨[⟨true, omd, some 0, true⟩], some 0, 1, 1, [(0, u1)], [], [], []⟩ : WsState V)
      = ⟨[⟨false, omd, some 0, true⟩], some 0, 1, 1, [(0, u1)], [0], [], ["ws closed"]⟩ := rfl
  have hC : runEffect mk u2 omd
      (⟨[⟨false, omd, some 0, true⟩], some 0, 1, 1, [(0, u1)], [0], [], ["ws closed"]⟩ : WsState V)
      = ⟨[⟨true, omd, some 1, true⟩, ⟨false, omd, some 0, true⟩], some 1, 2, 2,
         [(0, u1), (1, u2)], [0], [], ["ws closed"]⟩ := by
    unfold runEffect
    rw [if_neg h2, if_pos m2]
    exact rfl
  rw [hA, hB, hC]
  refine ⟨rfl, rfl, ?_, rfl, rfl, rfl, ?_⟩
  · intro r hr hc
    simp only [List.mem_singleton] at hr
    subst hr
    rfl
  · have hdead : ∀ r, handlerFor
        [(⟨true, omd, some 1, true⟩ : Run), ⟨false, omd, some 0, true⟩] 0 = some r
        → r.alive = false := by
      intro r hr
      have hcomp : handlerFor
          [(⟨true, omd, some 1, true⟩ : Run), ⟨false, omd, some 0, true⟩] 0
          = some ⟨false, omd, some 0, true⟩ := rfl
      rw [hcomp] at hr
      cases hr
      rfl
    exact feedFrames_calls_of_dead dec 0 late _ hdead

/-- C3 witness: a concrete url change opens exactly socket 0 on the first
url and socket 1 on the second. -/
theorem endpoint_change_resubscription_witness :
    ("wa" ≠ "") ∧ ("wb" ≠ "")
  ∧ (runEffect (fun _ => true) "wb" true (runCleanup (runEffect (fun _ => true) "wa" true
      (initState Nat)))).opened = [(0, "wa"), (1, "wb")] := by
  refine ⟨by decide, by decide, ?_⟩
  exact (endpoint_change_resubscription Nat (fun _ => true) (fun _ => none) "wa" "wb" true []
    (by decide) (by decide) rfl rfl).2.2.2.1

/-- C4: when the transport constructor throws synchronously, useWs logs
"ws err" and returns normally (the embedding is a total function into a
state with no socket): the constructor was invoked once but no connection
was opened, frames can never reach onMsg (no handler exists), and the
handle is inert — its teardown is a no-op. -/
theorem construction_failure_inert (V : Type) (mk : String → Bool)
    (dec : String → Option V) (url : String) (omd : Bool) (i : Nat)
    (ps : List String) (hurl : url ≠ "") (hmk : mk url = false) :
    (runEffect mk url omd (initState V)).logMsgs = ["ws err"]
  ∧ (runEffect mk url omd (initState V)).ctorCalls = 1
  ∧ (runEffect mk url omd (initState V)).opened = []
  ∧ (feedFrames dec i ps (runEffect mk url omd (initState V))).calls = []
  ∧ runCleanup (runEffect mk url omd (initState V)) = runEffect mk url omd (initState V) := by
  have h0 : runEffect mk url omd (initState V)
      = ⟨[⟨true, omd, none, false⟩], none, 0, 1, [], [], [], ["ws err"]⟩ := by
    unfold runEffect initState
    rw [if_neg hurl, if_neg (by rw [hmk]; exact Bool.false_ne_true)]
    exact rfl
  rw [h0]
  refine ⟨rfl, rfl, rfl, ?_, rfl⟩
  rw [feedFrames_id_of_no_handler dec i ps
    (⟨[⟨true, omd, none, false⟩], none, 0, 1, [], [], [], ["ws err"]⟩ : WsState V) rfl]

/-- C4 witness: a concrete throwing constructor yields the logged failure
and an inert, connection-free handle. -/
theorem construction_failure_inert_witness :
    ("u" ≠ "")
  ∧ (runEffect (fun _ => false) "u" true (initState Nat)).logMsgs = ["ws err"]
  ∧ (runEffect (fun _ => false) "u" true (initState Nat)).opened = [] := by
  refine ⟨by decide, ?_, ?_⟩
  · exact (construction_failure_inert Nat (fun _ => false) (fun _ => none) "u" true 0 []
      (by decide) rfl).1
  · exact (construction_failure_inert Nat (fun _ => false) (fun _ => none) "u" true 0 []
      (by decide) rfl).2.2.1

/-- C5: an empty endpoint url attempts no connection at all: the
constructor is never invoked, nothing is opened or logged, frames can
never reach onMsg, and closing the resulting handle is a no-op. -/
theorem empty_url_inert (V : Type) (mk : String → Bool)
    (dec : String → Option V) (omd : Bool) (i : Nat) (ps : List String) :
    (runEffect mk "" omd (initState V)).ctorCalls = 0
  ∧ (runEffect mk "" omd (initState V)).opened = []
  ∧ (runEffect mk "" omd (initState V)).logMsgs = []
  ∧ (feedFrames dec i ps (runEffect mk "" omd (initState V))).calls = []
  ∧ runCleanup (runEffect mk "" omd (initState V)) = runEffect mk "" omd (initState V) := by
  refine ⟨rfl, rfl, rfl, ?_, rfl⟩
  rw [feedFrames_id_of_no_handler dec i ps (runEffect mk "" omd (initState V)) rfl]
  exact rfl

/-- C6: teardown is idempotent: running the cleanup twice equals running
it once, on every state; tearing down the inert handle of an empty
endpoint changes nothing; and tearing down a handle whose connection
already terminated naturally adds no new close transition and no new
close log line. -/
theorem close_idempotent (V : Type) (mk : String → Bool) (omd : Bool)
    (s : WsState V) (url : String) (hurl : url ≠ "") (hmk : mk url = true) :
    runCleanup (runCleanup s) = runCleanup s
  ∧ runCleanup (runEffect mk "" omd (initState V)) = runEffect mk "" omd (initState V)
  ∧ (runCleanup (closeSocket 0 (runEffect mk url omd (initState V)))).closedIds
      = (closeSocket 0 (runEffect mk url omd (initState V))).closedIds
  ∧ (runCleanup (closeSocket 0 (runEffect mk url omd (initState V)))).logMsgs
      = (closeSocket 0 (runEffect mk url omd (initState V))).logMsgs := by
  have h0 : runEffect mk url omd (initState V)
      = ⟨[⟨true, omd, some 0, true⟩], some 0, 1, 1, [(0, url)], [], [], []⟩ := by
    unfold runEffect initState
    rw [if_neg hurl, if_pos hmk]
    exact rfl
  refine ⟨runCleanup_idem s, rfl, ?_, ?_⟩
  · rw [h0]; exact rfl
  · rw [h0]; exact rfl

/-- C6 witness: a concrete naturally-terminated connection gains no new
teardown side effect from the cleanup. -/
theorem close_idempotent_witness :
    ("u" ≠ "")
  ∧ (runCleanup (closeSocket 0 (runEffect (fun _ => true) "u" true (initState Nat)))).closedIds
      = (closeSocket 0 (runEffect (fun _ => true) "u" true (initState Nat))).closedIds := by
  refine ⟨by decide, ?_⟩
  exact (close_idempotent Nat (fun _ => true) true (initState Nat) "u" (by decide) rfl).2.2.1

/-- C7 counterexample: the claim says a summary fetch error is only logged
and not surfaced to the UI as a visible error state; but on a concrete
rejection the Dashboard stores the message in its error state and renders
a visible error card. -/
theorem summary_error_surfaced_counterexample :
    (dashAfterFetch (Except.error ⟨"Network Error", none⟩)).err = some "Network Error"
  ∧ dashRender (dashAfterFetch (Except.error ⟨"Network Error", none⟩))
      = DashView.errorCard "Network Error" := by
  exact ⟨rfl, rfl⟩

/-- C7 amended: every REST fetch error is surfaced as a visible error
state, never silently swallowed.  The roster (Students) and logs views
surface the full record — message, HTTP status text, and response body
when available — while the summary (Dashboard) view both logs the failure
and surfaces an error card showing only the message. -/
theorem rest_error_surfacing (e : AxiosError) :
    (dashAfterFetch (Except.error e)).warned
      = ["Dashboard summary not available: " ++ e.message]
  ∧ dashRender (dashAfterFetch (Except.error e))
      = DashView.errorCard (if e.message = "" then "Not available" else e.message)
  ∧ renderErrorBox (studentsAfterFetch (Except.error e)).err
      = some ⟨e.message, statusText (e.response.map (fun r => r.status)),
              e.response.map (fun r => r.body)⟩
  ∧ renderErrorBox (logsAfterFetch (Except.error e)).err
      = some ⟨e.message, statusText (e.response.map (fun r => r.status)),
              e.response.map (fun r => r.body)⟩ := by
  exact ⟨rfl, rfl, rfl, rfl⟩

/-- C8 counterexample: the claim says every REST call carries the
environment-configured base URL and a 10 second timeout; but the Students
fetch is one of the system REST calls and goes through the default axios
client: no base URL and timeout 0, not 10000. -/
theorem rest_calls_bypass_client :
    studentsCall ∈ systemRestCalls
  ∧ studentsCall.client.timeout = 0
  ∧ ¬ studentsCall.client.timeout = 10000
  ∧ studentsCall.client.baseURL = none := by
  decide

/-- C8 amended: the repository defines an axios client (src/api.js) whose
base URL comes from an environment value falling back to the loopback
address and whose timeout is fixed at 10000 ms, but none of the three REST
calls use it: all go through the default axios client with no base URL and
no timeout. -/
theorem rest_client_config :
    (∀ env : Option String, (apiClient env).timeout = 10000
      ∧ (apiClient env).baseURL.isSome = true)
  ∧ apiClient none = ⟨some "http://127.0.0.1:8000", 10000⟩
  ∧ apiClient (some "") = ⟨some "http://127.0.0.1:8000", 10000⟩
  ∧ (∀ c ∈ systemRestCalls, c.client = defaultAxios)
  ∧ defaultAxios = ⟨none, 0⟩ := by
  refine ⟨?_, rfl, by decide, by decide, rfl⟩
  intro env
  cases env with
  | none => exact ⟨rfl, rfl⟩
  | some s => exact ⟨rfl, rfl⟩

/-- C9: for every successful summary response, the displayed statistics
take each field from the response when present and default to 0 when
absent, and the rendered view shows exactly those two numbers. -/
theorem summary_field_defaults (d : SummaryData) :
    (dashAfterFetch (Except.ok (some d))).stats.students = d.students.getD 0
  ∧ (dashAfterFetch (Except.ok (some d))).stats.todays = d.todays.getD 0
  ∧ dashRender (dashAfterFetch (Except.ok (some d)))
      = DashView.statsCards (d.students.getD 0) (d.todays.getD 0) := by
  exact ⟨rfl, rfl, rfl⟩

/-- C10: a successful logs response whose body is not an array is stored
as the empty list, and the view then renders its empty-state message. -/
theorem logs_nonarray_guard (raw : String) :
    (logsAfterFetch (Except.ok (LogsBody.nonArray raw))).logsList = []
  ∧ logsShowsEmptyState (logsAfterFetch (Except.ok (LogsBody.nonArray raw))) = true := by
  exact ⟨rfl, rfl⟩

end FaceAttend
